import Mathlib

/-!
Shallow embedding of the Leave-Approval backend (server/app/main.py and
server/app/utils/email.py).  Python dictionaries with string keys and
string-convertible values are modelled as association lists of strings;
mutation is explicit state passing.  External collaborators (the Mongo
collection, the token signer, the SMTP client, the Jinja template
environment, urllib.parse.unquote) are parameters of the model; everything
else is translated directly from the source.
-/

namespace LeaveApproval

/-- Python dict with string keys and string values (str() applied on use). -/
def Dict : Type := List (String × String)

instance : DecidableEq Dict := by
  unfold Dict
  infer_instance

/-- Model of `d.get(k)` / `d[k]` lookup: first binding for the key. -/
def dictGet (d : Dict) (k : String) : Option String :=
  (d.find? (fun p => p.1 == k)).map (fun p => p.2)

/-- Model of `d.get(k, default)`. -/
def dictGetD (d : Dict) (k default : String) : String :=
  (dictGet d k).getD default

/-- Model of `k in d`. -/
def dictContains (d : Dict) (k : String) : Bool :=
  d.any (fun p => p.1 == k)

/-- Model of the assignment `d[k] = v` (overwrites any previous binding). -/
def dictSet (d : Dict) (k v : String) : Dict :=
  (k, v) :: d.filter (fun p => ¬ p.1 = k)

/-- Model of `d.update(fresh)`: every binding of `fresh` is assigned in order. -/
def dictUpdate (d fresh : Dict) : Dict :=
  fresh.foldl (fun acc kv => dictSet acc kv.1 kv.2) d

/-- Python truthiness of an optional string (None and "" are falsy). -/
def truthy : Option String → Bool
  | none => false
  | some s => !s.isEmpty

/-- Python str() of a bool, as interpolated into f-strings. -/
def pyBool : Bool → String
  | true => "True"
  | false => "False"

/-- Python str() of an optional value: f-string interpolation of None gives "None". -/
def pyNone : Option String → String
  | none => "None"
  | some s => s

/-- Model of Python `s.startswith(p)`. -/
def startswith (s p : String) : Bool :=
  p.data.isPrefixOf s.data

/-- Auxiliary scan for substring containment. -/
def containsAux (p : List Char) : List Char → Bool
  | [] => p.isEmpty
  | c :: rest => p.isPrefixOf (c :: rest) || containsAux p rest

/-- Model of Python `pat in s` on strings (substring containment). -/
def containsSub (s pat : String) : Bool :=
  containsAux pat.data s.data

/-- Accumulator for decimal digit parsing. -/
def digitsAux : List Char → Nat → Option Nat
  | [], acc => some acc
  | c :: rest, acc =>
    if c.isDigit then digitsAux rest (acc * 10 + (c.toNat - 48)) else none

/-- Decimal value of a non-empty digit string. -/
def digitsVal : List Char → Option Nat
  | [] => none
  | cs => digitsAux cs 0

/-- Model of the Python `int()` constructor on a string (None on failure,
where the real constructor raises ValueError). -/
def pyInt (s : String) : Option Int :=
  match s.data with
  | '-' :: cs => (digitsVal cs).map (fun n => -(n : Int))
  | '+' :: cs => (digitsVal cs).map (fun n => (n : Int))
  | cs => (digitsVal cs).map (fun n => (n : Int))

/-- Outcome of a Python call: a normal return or a propagated exception. -/
inductive PyResult (α : Type) : Type
  | ok (v : α)
  | exn (msg : String)
deriving DecidableEq

namespace MainApp

/-- main.py line 65: FRONTEND_URL = os.getenv("FRONTEND_URL", "http://localhost:5173"). -/
def FRONTEND_URL (envv : String → Option String) : String :=
  (envv "FRONTEND_URL").getD "http://localhost:5173"

/-- main.py line 66: BACKEND_URL = os.getenv("BACKEND_URL", "http://localhost:8000"). -/
def BACKEND_URL (envv : String → Option String) : String :=
  (envv "BACKEND_URL").getD "http://localhost:8000"

/-- An HTTP request as seen by the middleware: URL path, query parameters
and request headers. -/
structure Request : Type where
  path : String
  query_params : Dict
  headers : Dict

/-- main.py lines 39-62, the AMP email CORS middleware.  `unquote` is
urllib.parse.unquote (an external library routine); `resp` is the header
map of the response produced by `call_next`. -/
def add_amp_cors_headers (unquote : String → String) (req : Request) (resp : Dict) : Dict :=
  if startswith req.path "/leave/" then
    let amp_source_origin := dictGet req.query_params "__amp_source_origin"
    let h1 :=
      if truthy amp_source_origin then
        dictSet resp "AMP-Access-Control-Allow-Source-Origin"
          (unquote (amp_source_origin.getD ""))
      else
        dictSet resp "AMP-Access-Control-Allow-Source-Origin"
          ((dictGet req.headers "Origin").getD "*")
    dictSet (dictSet (dictSet (dictSet
      (dictSet h1 "Access-Control-Allow-Origin" "*")
      "Access-Control-Allow-Methods" "GET, POST, PUT, DELETE, OPTIONS")
      "Access-Control-Allow-Headers" "*")
      "Access-Control-Expose-Headers" "*")
      "Access-Control-Allow-Credentials" "true"
  else
    resp

end MainApp

namespace EmailUtil

/-- email.py line 39: BACKEND_URL = os.getenv("BACKEND_URL", "http://localhost:8000"). -/
def BACKEND_URL (envv : String → Option String) : String :=
  (envv "BACKEND_URL").getD "http://localhost:8000"

/-- email.py line 40: FRONTEND_URL = os.getenv("FRONTEND_URL", "http://localhost:5173"). -/
def FRONTEND_URL (envv : String → Option String) : String :=
  (envv "FRONTEND_URL").getD "http://localhost:5173"

/-- email.py line 34: EMAIL_PORT = int(os.getenv("EMAIL_PORT", 587)). -/
def EMAIL_PORT (envv : String → Option String) : Option Int :=
  match envv "EMAIL_PORT" with
  | none => some 587
  | some s => pyInt s

/-- The module-level email/URL configuration of email.py (lines 33-40):
EMAIL_HOST, EMAIL_USER, EMAIL_PASS are os.getenv results (None when unset);
BACKEND_URL and FRONTEND_URL are the getenv-with-default strings. -/
structure Config : Type where
  EMAIL_HOST : Option String
  EMAIL_USER : Option String
  EMAIL_PASS : Option String
  BACKEND_URL : String
  FRONTEND_URL : String
deriving DecidableEq

/-- email.py line 75: the error message of the incomplete-configuration
early return of send_leave_action_email. -/
def configErrMsg (cfg : Config) : String :=
  "Email configuration incomplete - HOST: " ++ pyBool (truthy cfg.EMAIL_HOST) ++
    ", USER: " ++ pyBool (truthy cfg.EMAIL_USER) ++
    ", PASS: " ++ pyBool (truthy cfg.EMAIL_PASS)

/-- email.py lines 80-86: substitute localhost defaults when either URL
configuration value is falsy; returns (backend_url, frontend_url). -/
def effectiveUrls (backendCfg frontendCfg : String) : String × String :=
  if backendCfg.isEmpty || frontendCfg.isEmpty then
    ("http://localhost:8000", "http://localhost:5173")
  else
    (backendCfg, frontendCfg)

/-- email.py line 383 / 201: the approve hyperlink target,
backend_url/api/leave/{id}/approve?token={approval_token}. -/
def approve_link (leave_dict : Dict) (backend_url : String) : String :=
  backend_url ++ "/api/leave/" ++ pyNone (dictGet leave_dict "_id") ++
    "/approve?token=" ++ pyNone (dictGet leave_dict "approval_token")

/-- email.py line 387: the reject hyperlink target,
backend_url/api/leave/{id}/reject?token={rejection_token}. -/
def reject_link (leave_dict : Dict) (backend_url : String) : String :=
  backend_url ++ "/api/leave/" ++ pyNone (dictGet leave_dict "_id") ++
    "/reject?token=" ++ pyNone (dictGet leave_dict "rejection_token")

/-- email.py lines 338-382: the fallback HTML body up to the opening of the
approve anchor's href attribute. -/
def fallbackPart1 (leave_dict : Dict) : String :=
  "\n    <!DOCTYPE html>\n    <html>\n    <head>\n        <meta charset=\"utf-8\">\n        <title>Leave Request Approval</title>\n    </head>\n    <body style=\"font-family: Arial, sans-serif; line-height: 1.6; color: #333; max-width: 600px; margin: 0 auto; padding: 20px;\">\n        <div style=\"background: linear-gradient(135deg, #667eea 0%, #764ba2 100%); color: white; padding: 20px; border-radius: 10px 10px 0 0; text-align: center;\">\n            <h1 style=\"margin: 0; font-size: 24px;\">Leave Request Approval Required</h1>\n        </div>\n        <div style=\"background: #f9f9f9; padding: 30px; border-radius: 0 0 10px 10px; border: 1px solid #ddd;\">\n            <h2 style=\"color: #333; margin-top: 0;\">Leave Request Details</h2>\n            <table style=\"width: 100%; border-collapse: collapse; margin: 20px 0;\">\n                <tr style=\"background: #f0f0f0;\">\n                    <td style=\"padding: 10px; border: 1px solid #ddd; font-weight: bold;\">Employee:</td>\n                    <td style=\"padding: 10px; border: 1px solid #ddd;\">" ++
  dictGetD leave_dict "employee_name" "N/A" ++
  "</td>\n                </tr>\n                <tr>\n                    <td style=\"padding: 10px; border: 1px solid #ddd; font-weight: bold;\">Department:</td>\n                    <td style=\"padding: 10px; border: 1px solid #ddd;\">" ++
  dictGetD leave_dict "employee_department" "N/A" ++
  "</td>\n                </tr>\n                <tr style=\"background: #f0f0f0;\">\n                    <td style=\"padding: 10px; border: 1px solid #ddd; font-weight: bold;\">Leave Type:</td>\n                    <td style=\"padding: 10px; border: 1px solid #ddd;\">" ++
  dictGetD leave_dict "leave_type" "N/A" ++
  "</td>\n                </tr>\n                <tr>\n                    <td style=\"padding: 10px; border: 1px solid #ddd; font-weight: bold;\">Start Date:</td>\n                    <td style=\"padding: 10px; border: 1px solid #ddd;\">" ++
  dictGetD leave_dict "start_date" "N/A" ++
  "</td>\n                </tr>\n                <tr style=\"background: #f0f0f0;\">\n                    <td style=\"padding: 10px; border: 1px solid #ddd; font-weight: bold;\">End Date:</td>\n                    <td style=\"padding: 10px; border: 1px solid #ddd;\">" ++
  dictGetD leave_dict "end_date" "N/A" ++
  "</td>\n                </tr>\n                <tr>\n                    <td style=\"padding: 10px; border: 1px solid #ddd; font-weight: bold;\">Days:</td>\n                    <td style=\"padding: 10px; border: 1px solid #ddd;\">" ++
  dictGetD leave_dict "days" "N/A" ++
  "</td>\n                </tr>\n                <tr style=\"background: #f0f0f0;\">\n                    <td style=\"padding: 10px; border: 1px solid #ddd; font-weight: bold;\">Reason:</td>\n                    <td style=\"padding: 10px; border: 1px solid #ddd;\">" ++
  dictGetD leave_dict "reason" "N/A" ++
  "</td>\n                </tr>\n            </table>\n            \n            <div style=\"text-align: center; margin: 30px 0;\">\n                <a href=\""

/-- email.py lines 383-387: from the end of the approve href to the start of
the reject href. -/
def fallbackPart2 : String :=
  "\" \n                   style=\"background: #28a745; color: white; padding: 12px 30px; text-decoration: none; border-radius: 5px; margin: 0 10px; display: inline-block; font-weight: bold;\">\n                   ✅ APPROVE\n                </a>\n                <a href=\""

/-- email.py lines 387-399: from the end of the reject href to the end of the
fallback body. -/
def fallbackPart3 : String :=
  "\" \n                   style=\"background: #dc3545; color: white; padding: 12px 30px; text-decoration: none; border-radius: 5px; margin: 0 10px; display: inline-block; font-weight: bold;\">\n                   ❌ REJECT\n                </a>\n            </div>\n            \n            <p style=\"font-size: 14px; color: #666; margin-top: 30px;\">\n                This is an automated notification. Please click one of the buttons above to approve or reject this leave request.\n            </p>\n        </div>\n    </body>\n    </html>\n    "

/-- email.py lines 334-404: inline fallback content; the AMP body is the
same string as the HTML body. -/
def get_fallback_email_content (leave_dict : Dict) (backend_url : String) : String × String :=
  let html_content :=
    fallbackPart1 leave_dict ++ approve_link leave_dict backend_url ++
      fallbackPart2 ++ reject_link leave_dict backend_url ++ fallbackPart3
  let amp_content := html_content
  (amp_content, html_content)

/-- The Jinja template environment: rendering either template may raise. -/
structure TemplateEnv : Type where
  renderAmp : Dict → Except String String
  renderHtml : Dict → Except String String

/-- The unrendered-variable marker searched for at email.py line 163
(written with escaped braces). -/
def ampMarker : String := "\x7b\x7b leave."

/-- email.py lines 144-177: render both templates, falling back to the
inline content on a rendering exception, on AMP content that is empty or
shorter than 100 characters, or on an unrendered `leave.` variable marker;
with no template environment the fallback is used directly.  Returns
(amp_content, html_content). -/
def renderEmailContent (env : Option TemplateEnv) (leave_dict : Dict)
    (backend_url : String) : String × String :=
  match env with
  | none => get_fallback_email_content leave_dict backend_url
  | some e =>
    match e.renderAmp leave_dict with
    | Except.error _ => get_fallback_email_content leave_dict backend_url
    | Except.ok amp_content =>
      match e.renderHtml leave_dict with
      | Except.error _ => get_fallback_email_content leave_dict backend_url
      | Except.ok html_content =>
        if amp_content.isEmpty || amp_content.length < 100 then
          get_fallback_email_content leave_dict backend_url
        else if containsSub amp_content ampMarker then
          get_fallback_email_content leave_dict backend_url
        else
          (amp_content, html_content)

/-- email.py lines 189-204: the plain-text body (after .strip()). -/
def text_content (leave_dict : Dict) (backend_url : String) : String :=
  "Leave Request Approval Required\n\nEmployee: " ++
    dictGetD leave_dict "employee_name" "N/A" ++
    "\nDepartment: " ++ dictGetD leave_dict "employee_department" "N/A" ++
    "\nLeave Type: " ++ dictGetD leave_dict "leave_type" "N/A" ++
    "\nStart Date: " ++ dictGetD leave_dict "start_date" "N/A" ++
    "\nEnd Date: " ++ dictGetD leave_dict "end_date" "N/A" ++
    "\nDays: " ++ dictGetD leave_dict "days" "N/A" ++
    "\nReason: " ++ dictGetD leave_dict "reason" "N/A" ++
    "\n\nTo approve or reject this leave request, please visit:\n" ++
    backend_url ++ "/api/leave/" ++ pyNone (dictGet leave_dict "_id") ++
    "/approve?token=" ++ pyNone (dictGet leave_dict "approval_token") ++
    "\n\nThis is an automated notification from the Leave Management System."

/-- One MIME body part of the outgoing message. -/
structure MimePart : Type where
  mimeType : String
  content : String
deriving DecidableEq

/-- email.py lines 206-222: the body parts of the message, in order: plain
text first (set_content), the HTML alternative, and the AMP part attached
with MIME type text/x-amp-html, or as a further HTML alternative when the
attach step raises. -/
def assembleParts (text html amp : String) (attachOk : Bool) : List MimePart :=
  [⟨"text/plain", text⟩, ⟨"text/html", html⟩] ++
    (if attachOk then [⟨"text/x-amp-html", amp⟩] else [⟨"text/html", amp⟩])

/-- One call of generate_approval_token: (leave_id, manager_id, action, hours). -/
def TokenCall : Type := String × String × String × Nat

instance : DecidableEq TokenCall := by
  unfold TokenCall
  infer_instance

/-- External collaborators of send_leave_action_email: the database import
and lookup, the token signer, the AMP MIME attach step, and the SMTP
session (constructor, starttls, login and send folded into one outcome). -/
structure Ext : Type where
  importOk : Except String Unit
  dbLookup : String → Except String (Option Dict)
  genToken : String → String → String → Nat → Except String String
  attachOk : Bool
  smtpSend : Except String Unit

/-- Observable outcome of one call of send_leave_action_email: the final
state of the (mutated) leave_dict argument, the call result, the token
generation calls made, the tokens once both were generated, the assembled
message parts, and whether SMTP contact was attempted. -/
structure SendResult : Type where
  dict : Dict
  result : PyResult (Option Dict)
  tokenCalls : List TokenCall
  tokensGenerated : Option (String × String)
  message : Option (List MimePart)
  smtpAttempted : Bool

/-- email.py lines 101-109: when '_id' is present, fetch fresh data and fold
it into leave_dict, re-stringifying _id, manager_id and employee_id (each a
KeyError when missing from the fresh record).  Returns the dict state and
the raised exception, if any. -/
def refreshStep (dbLookup : String → Except String (Option Dict)) (d0 : Dict) :
    Dict × Option String :=
  match dictGet d0 "_id" with
  | none => (d0, none)
  | some idv =>
    match dbLookup idv with
    | Except.error e => (d0, some e)
    | Except.ok none => (d0, none)
    | Except.ok (some fresh) =>
      let du := dictUpdate d0 fresh
      match dictGet fresh "_id" with
      | none => (du, some "KeyError: _id")
      | some i =>
        let d1 := dictSet du "_id" i
        match dictGet fresh "manager_id" with
        | none => (d1, some "KeyError: manager_id")
        | some m =>
          let d2 := dictSet d1 "manager_id" m
          match dictGet fresh "employee_id" with
          | none => (d2, some "KeyError: employee_id")
          | some ev => (dictSet d2 "employee_id" ev, none)

/-- email.py lines 124-128: ensure the total_days field for template
compatibility. -/
def totalDaysStep (d : Dict) : Dict :=
  if dictContains d "days" && !dictContains d "total_days" then
    dictSet d "total_days" (dictGetD d "days" "")
  else if !dictContains d "total_days" && !dictContains d "days" then
    dictSet (dictSet d "total_days" "N/A") "days" "N/A"
  else
    d

/-- email.py lines 120-132: the in-place mutations of leave_dict after both
tokens were generated — record the tokens, ensure total_days, record the
URLs. -/
def dict4 (d1 : Dict) (approval_token rejection_token u1 u2 : String) : Dict :=
  dictSet (dictSet (totalDaysStep
    (dictSet (dictSet d1 "approval_token" approval_token)
      "rejection_token" rejection_token))
    "backend_url" u1) "frontend_url" u2

/-- email.py lines 119-232: the tail of send_leave_action_email after both
tokens were generated: record the tokens and URLs in leave_dict, ensure
total_days, render the content, assemble the message (KeyError when
manager_email is missing) and attempt SMTP delivery. -/
def composeAndSend (ext : Ext) (env : Option TemplateEnv) (urls : String × String)
    (d1 : Dict) (lid mid approval_token rejection_token : String) : SendResult :=
  let calls : List TokenCall :=
    [(lid, mid, "approve", 24), (lid, mid, "reject", 24)]
  let d4 := dict4 d1 approval_token rejection_token urls.1 urls.2
  let rendered := renderEmailContent env d4 urls.1
  match dictGet d4 "manager_email" with
  | none =>
    { dict := d4, result := PyResult.exn "KeyError: manager_email",
      tokenCalls := calls,
      tokensGenerated := some (approval_token, rejection_token),
      message := none, smtpAttempted := false }
  | some _ =>
    let parts := assembleParts (text_content d4 urls.1) rendered.2 rendered.1 ext.attachOk
    match ext.smtpSend with
    | Except.error e =>
      { dict := d4, result := PyResult.exn e, tokenCalls := calls,
        tokensGenerated := some (approval_token, rejection_token),
        message := some parts, smtpAttempted := true }
    | Except.ok _ =>
      { dict := d4, result := PyResult.ok none, tokenCalls := calls,
        tokensGenerated := some (approval_token, rejection_token),
        message := some parts, smtpAttempted := true }

/-- email.py lines 67-232: the body of send_leave_action_email inside the
outer try block; PyResult.exn is an exception that reaches the outer
handler. -/
def sendBody (cfg : Config) (ext : Ext) (env : Option TemplateEnv) (leave0 : Dict) :
    SendResult :=
  if (truthy cfg.EMAIL_HOST && truthy cfg.EMAIL_USER && truthy cfg.EMAIL_PASS) = false then
    { dict := leave0, result := PyResult.ok (some [("error", configErrMsg cfg)]),
      tokenCalls := [], tokensGenerated := none, message := none,
      smtpAttempted := false }
  else
    let urls := effectiveUrls cfg.BACKEND_URL cfg.FRONTEND_URL
    match ext.importOk with
    | Except.error e =>
      { dict := leave0, result := PyResult.exn e, tokenCalls := [],
        tokensGenerated := none, message := none, smtpAttempted := false }
    | Except.ok _ =>
      match refreshStep ext.dbLookup leave0 with
      | (d1, some e) =>
        { dict := d1, result := PyResult.exn e, tokenCalls := [],
          tokensGenerated := none, message := none, smtpAttempted := false }
      | (d1, none) =>
        match dictGet d1 "_id" with
        | none =>
          { dict := d1, result := PyResult.exn "KeyError: _id", tokenCalls := [],
            tokensGenerated := none, message := none, smtpAttempted := false }
        | some lid =>
          match dictGet d1 "manager_id" with
          | none =>
            { dict := d1, result := PyResult.exn "KeyError: manager_id",
              tokenCalls := [], tokensGenerated := none, message := none,
              smtpAttempted := false }
          | some mid =>
            match ext.genToken lid mid "approve" 24 with
            | Except.error e =>
              { dict := d1, result := PyResult.exn e,
                tokenCalls := [(lid, mid, "approve", 24)],
                tokensGenerated := none, message := none, smtpAttempted := false }
            | Except.ok approval_token =>
              match ext.genToken lid mid "reject" 24 with
              | Except.error e =>
                { dict := d1, result := PyResult.exn e,
                  tokenCalls := [(lid, mid, "approve", 24), (lid, mid, "reject", 24)],
                  tokensGenerated := none, message := none, smtpAttempted := false }
              | Except.ok rejection_token =>
                composeAndSend ext env urls d1 lid mid approval_token rejection_token

/-- email.py lines 66-237: send_leave_action_email; the outer except block
catches every exception of the body, logs it and returns None. -/
def send_leave_action_email (cfg : Config) (ext : Ext) (env : Option TemplateEnv)
    (leave0 : Dict) : SendResult :=
  let r := sendBody cfg ext env leave0
  match r.result with
  | PyResult.exn _ => { r with result := PyResult.ok none }
  | PyResult.ok _ => r

/-- email.py lines 248-251: the missing configuration variable names, in
source order. -/
def missing_vars (cfg : Config) : List String :=
  (if !truthy cfg.EMAIL_HOST then ["EMAIL_HOST"] else []) ++
    (if !truthy cfg.EMAIL_USER then ["EMAIL_USER"] else []) ++
    (if !truthy cfg.EMAIL_PASS then ["EMAIL_PASS"] else [])

/-- email.py line 253: the error message of the raised configuration
exception of send_password_reset_otp. -/
def otpConfigErrMsg (cfg : Config) : String :=
  "Email configuration not available. Missing: " ++
    String.intercalate ", " (missing_vars cfg)

/-- Observable outcome of one call of send_password_reset_otp. -/
structure OtpResult : Type where
  result : PyResult Unit
  message : Option (List MimePart)
  smtpAttempted : Bool

/-- email.py lines 260-294: the HTML body of the OTP email (the OTP value
interpolated into the inline template). -/
def otpHtmlContent (otp : String) : String :=
  "\n            <!DOCTYPE html>\n            <html>\n              <head>\n                <meta charset=\"utf-8\">\n                <title>Password Reset OTP</title>\n              </head>\n              <body style=\"font-family: Arial, sans-serif; line-height: 1.6; color: #333; max-width: 600px; margin: 0 auto; padding: 20px;\">\n                <div style=\"background: linear-gradient(135deg, #667eea 0%, #764ba2 100%); color: white; padding: 20px; border-radius: 10px 10px 0 0; text-align: center;\">\n                  <h1 style=\"margin: 0; font-size: 24px;\">Password Reset Request</h1>\n                </div>\n                <div style=\"background: #f9f9f9; padding: 30px; border-radius: 0 0 10px 10px; border: 1px solid #ddd;\">\n                  <p style=\"font-size: 16px; margin-bottom: 20px;\">You have requested to reset your password for the Leave Management System.</p>\n                  \n                  <div style=\"background: white; padding: 20px; border-radius: 8px; text-align: center; margin: 20px 0; border: 2px solid #667eea;\">\n                    <p style=\"margin: 0 0 10px 0; font-weight: bold; color: #666;\">Your One-Time Password (OTP) is:</p>\n                    <h2 style=\"margin: 0; font-size: 32px; letter-spacing: 8px; color: #667eea; font-family: 'Courier New', monospace;\">" ++
    otp ++
    "</h2>\n                  </div>\n                  \n                  <div style=\"background: #fff3cd; border: 1px solid #ffeaa7; padding: 15px; border-radius: 5px; margin: 20px 0;\">\n                    <p style=\"margin: 0; color: #856404;\"><strong>Important:</strong></p>\n                    <ul style=\"margin: 10px 0; color: #856404;\">\n                      <li>This OTP expires in <strong>10 minutes</strong></li>\n                      <li>You can only use this OTP <strong>once</strong></li>\n                      <li>If you didn't request this, please ignore this email</li>\n                    </ul>\n                  </div>\n                  \n                  <p style=\"font-size: 14px; color: #666; margin-top: 30px;\">\n                    This is an automated message. Please do not reply to this email.\n                  </p>\n                </div>\n              </body>\n            </html>\n        "

/-- email.py lines 297-310: the plain-text body of the OTP email (after
.strip()). -/
def otpTextContent (otp : String) : String :=
  "Password Reset Request - Leave Management System\n\nYou have requested to reset your password.\n\nYour One-Time Password (OTP) is: " ++
    otp ++
    "\n\nImportant:\n- This OTP expires in 10 minutes\n- You can only use this OTP once\n- If you didn't request this, please ignore this email\n\nThis is an automated message. Please do not reply to this email."

/-- email.py lines 243-331: send_password_reset_otp; the body raises on
incomplete configuration, and the except block re-raises every exception
(raise e), so failures propagate to the caller. -/
def send_password_reset_otp (cfg : Config) (smtpSend : Except String Unit)
    (recipient_email otp : String) : OtpResult :=
  if (truthy cfg.EMAIL_HOST && truthy cfg.EMAIL_USER && truthy cfg.EMAIL_PASS) = false then
    { result := PyResult.exn (otpConfigErrMsg cfg), message := none,
      smtpAttempted := false }
  else
    let parts : List MimePart :=
      [⟨"text/plain", otpTextContent otp⟩, ⟨"text/html", otpHtmlContent otp⟩]
    match smtpSend with
    | Except.error e =>
      { result := PyResult.exn e, message := some parts, smtpAttempted := true }
    | Except.ok _ =>
      { result := PyResult.ok (), message := some parts, smtpAttempted := true }

end EmailUtil

namespace Tokens

/-- Modelled from the spec: utils/tokens.py (generate_approval_token and its
verifier) and the leave approval/rejection route handlers are not under
src/; the spec describes "a time-boxed, single-use approval/rejection token
consumed via an emailed link".  The state is the set of already-consumed
tokens together with the leave record's status. -/
structure ApprovalState : Type where
  usedTokens : List String
  leaveStatus : String
deriving DecidableEq

/-- Modelled from the spec: consuming a token via its emailed link; a token
already consumed is rejected and changes nothing, otherwise the leave
status is updated and the token is recorded as consumed.  Returns the new
state and whether the action was applied. -/
def consume_approval_token (st : ApprovalState) (token newStatus : String) :
    ApprovalState × Bool :=
  if st.usedTokens.contains token then
    (st, false)
  else
    ({ usedTokens := token :: st.usedTokens, leaveStatus := newStatus }, true)

/-- Modelled from the spec: a sequence of consumption requests
(token, requested status) processed in order. -/
def run_consumes (st : ApprovalState) : List (String × String) → ApprovalState
  | [] => st
  | (t, a) :: rest => run_consumes (consume_approval_token st t a).1 rest

end Tokens

end LeaveApproval

namespace LeaveApproval

lemma dictGet_set_self (d : Dict) (k v : String) :
    dictGet (dictSet d k v) k = some v := by
  simp [dictGet, dictSet, List.find?_cons]

lemma find?_filter_key (d : Dict) (k k' : String) (h : k' ≠ k) :
    List.find? (fun p => p.1 == k') (d.filter (fun p => ¬ p.1 = k)) =
      List.find? (fun p => p.1 == k') d := by
  rw [List.find?_filter]
  congr 1
  funext p
  by_cases hk' : p.1 = k'
  · have hpk : ¬ p.1 = k := by
      rw [hk']
      exact h
    simp [hk', hpk, h]
  · simp [hk']

lemma dictGet_set_ne (d : Dict) (k v k' : String) (h : k' ≠ k) :
    dictGet (dictSet d k v) k' = dictGet d k' := by
  have hkk : ¬ (((k, v).1 == k') = true) := by
    simp only [beq_iff_eq]
    exact fun hh => h hh.symm
  unfold dictGet dictSet
  have step : List.find? (fun p => p.1 == k')
      ((k, v) :: List.filter (fun p => ¬ p.1 = k) d) =
      List.find? (fun p => p.1 == k') (List.filter (fun p => ¬ p.1 = k) d) :=
    List.find?_cons_of_neg _ hkk
  rw [step, find?_filter_key d k k' h]

lemma dictContains_eq_isSome (d : Dict) (k : String) :
    dictContains d k = (dictGet d k).isSome := by
  induction d with
  | nil => rfl
  | cons a rest ih =>
    cases h : (a.1 == k) <;>
      simp [dictContains, dictGet, List.any_cons, List.find?_cons, h] <;>
      simpa [dictContains, dictGet] using ih

lemma dictContains_set_self (d : Dict) (k v : String) :
    dictContains (dictSet d k v) k = true := by
  simp [dictContains_eq_isSome, dictGet_set_self]

lemma dictContains_set_ne (d : Dict) (k v k' : String) (h : k' ≠ k) :
    dictContains (dictSet d k v) k' = dictContains d k' := by
  simp [dictContains_eq_isSome, dictGet_set_ne d k v k' h]

namespace EmailUtil

lemma totalDaysStep_contains_total (d : Dict) :
    dictContains (totalDaysStep d) "total_days" = true := by
  unfold totalDaysStep
  split
  · exact dictContains_set_self d "total_days" _
  · split
    · rw [dictContains_set_ne _ "days" _ "total_days" (by decide)]
      exact dictContains_set_self d "total_days" _
    · rename_i h1 h2
      cases hd : dictContains d "days" <;> cases ht : dictContains d "total_days"
      · exact absurd (by simp [hd, ht]) h2
      · rfl
      · exact absurd (by simp [hd, ht]) h1
      · rfl

lemma dictGet_totalDaysStep_ne (d : Dict) (k : String)
    (h1 : k ≠ "total_days") (h2 : k ≠ "days") :
    dictGet (totalDaysStep d) k = dictGet d k := by
  unfold totalDaysStep
  split
  · exact dictGet_set_ne d "total_days" _ k h1
  · split
    · rw [dictGet_set_ne _ "days" _ k h2, dictGet_set_ne d "total_days" _ k h1]
    · rfl

end EmailUtil

end LeaveApproval

open LeaveApproval LeaveApproval.EmailUtil LeaveApproval.MainApp LeaveApproval.Tokens

/-- C10: for every leave_dict and backend_url, get_fallback_email_content
returns a pair whose AMP and HTML components are the identical string, and
that string contains an approve link carrying the approval_token and a
reject link carrying the rejection_token. -/
theorem fallback_content_identical_with_links (d : Dict) (bu : String) :
    (get_fallback_email_content d bu).1 = (get_fallback_email_content d bu).2 ∧
    (∃ p q, (get_fallback_email_content d bu).2 = p ++ approve_link d bu ++ q) ∧
    (∃ p q, (get_fallback_email_content d bu).2 = p ++ reject_link d bu ++ q) := by
  refine ⟨rfl,
    ⟨fallbackPart1 d, fallbackPart2 ++ reject_link d bu ++ fallbackPart3, ?_⟩,
    ⟨fallbackPart1 d ++ approve_link d bu ++ fallbackPart2, fallbackPart3, ?_⟩⟩ <;>
  simp [get_fallback_email_content, String.append_assoc]

/-- C1: with no template environment the fallback content is used directly;
with one present, a rendering exception in either template, AMP content that
is empty or shorter than 100 characters, or a remaining literal unrendered
marker each replace both bodies by the fallback content; otherwise the
template-rendered pair is kept. -/
theorem template_render_then_fallback (e : TemplateEnv) (d : Dict) (bu : String) :
    renderEmailContent none d bu = get_fallback_email_content d bu ∧
    (∀ err, e.renderAmp d = Except.error err →
      renderEmailContent (some e) d bu = get_fallback_email_content d bu) ∧
    (∀ amp err, e.renderAmp d = Except.ok amp → e.renderHtml d = Except.error err →
      renderEmailContent (some e) d bu = get_fallback_email_content d bu) ∧
    (∀ amp html, e.renderAmp d = Except.ok amp → e.renderHtml d = Except.ok html →
      (amp.isEmpty = true ∨ amp.length < 100 ∨ containsSub amp ampMarker = true) →
      renderEmailContent (some e) d bu = get_fallback_email_content d bu) ∧
    (∀ amp html, e.renderAmp d = Except.ok amp → e.renderHtml d = Except.ok html →
      amp.isEmpty = false → ¬ amp.length < 100 → containsSub amp ampMarker = false →
      renderEmailContent (some e) d bu = (amp, html)) := by
  refine ⟨rfl, ?_, ?_, ?_, ?_⟩
  · intro err h
    simp [renderEmailContent, h]
  · intro amp err h1 h2
    simp [renderEmailContent, h1, h2]
  · intro amp html h1 h2 h3
    rcases h3 with h3 | h3 | h3
    · simp [renderEmailContent, h1, h2, h3]
    · simp [renderEmailContent, h1, h2, h3]
    · simp only [renderEmailContent, h1, h2, h3]
      split <;> simp
  · intro amp html h1 h2 hne hlen hmark
    simp [renderEmailContent, h1, h2, hne, hlen, hmark]

set_option maxRecDepth 8000 in
/-- C1 witness: concrete environments exercising the kept-content case and
the direct-fallback case. -/
theorem template_render_then_fallback_witness :
    (TemplateEnv.renderAmp ⟨fun _ => Except.ok "<html><body><p>Your leave request details are shown below. Please use the approve or reject buttons in this message to respond.</p></body></html>", fun _ => Except.ok "<p>ok</p>"⟩ [] = Except.ok "<html><body><p>Your leave request details are shown below. Please use the approve or reject buttons in this message to respond.</p></body></html>") ∧
    renderEmailContent (some ⟨fun _ => Except.ok "<html><body><p>Your leave request details are shown below. Please use the approve or reject buttons in this message to respond.</p></body></html>", fun _ => Except.ok "<p>ok</p>"⟩) [] "http://b" =
      ("<html><body><p>Your leave request details are shown below. Please use the approve or reject buttons in this message to respond.</p></body></html>", "<p>ok</p>") :=
  ⟨rfl,
    (template_render_then_fallback
      ⟨fun _ => Except.ok "<html><body><p>Your leave request details are shown below. Please use the approve or reject buttons in this message to respond.</p></body></html>", fun _ => Except.ok "<p>ok</p>"⟩
      [] "http://b").2.2.2.2
      "<html><body><p>Your leave request details are shown below. Please use the approve or reject buttons in this message to respond.</p></body></html>"
      "<p>ok</p>" rfl rfl (by decide) (by decide) (by decide)⟩

/-- C2: send_leave_action_email is best-effort: whatever the configuration,
the external collaborators' failures and the input dictionary, the call
never propagates an exception; it always returns normally (PyResult.ok). -/
theorem send_leave_action_email_never_raises (cfg : Config) (ext : Ext)
    (env : Option TemplateEnv) (d : Dict) :
    ∃ v, (send_leave_action_email cfg ext env d).result = PyResult.ok v := by
  unfold send_leave_action_email
  rcases hr : (sendBody cfg ext env d).result with v | m
  · exact ⟨v, by simp [hr]⟩
  · exact ⟨none, by simp [hr]⟩

namespace LeaveApproval

namespace Tokens

lemma contains_after_consume (st : ApprovalState) (t a : String) :
    t ∈ ((consume_approval_token st t a).1).usedTokens := by
  unfold consume_approval_token
  split
  · next h => simpa using h
  · simp

lemma contains_consume_mono (st : ApprovalState) (t' a t : String)
    (h : t ∈ st.usedTokens) :
    t ∈ ((consume_approval_token st t' a).1).usedTokens := by
  unfold consume_approval_token
  split
  · exact h
  · exact List.mem_cons_of_mem _ h

lemma contains_run_consumes_mono (ops : List (String × String)) (st : ApprovalState)
    (t : String) (h : t ∈ st.usedTokens) :
    t ∈ ((run_consumes st ops)).usedTokens := by
  induction ops generalizing st with
  | nil => exact h
  | cons op rest ih =>
    exact ih _ (contains_consume_mono st op.1 op.2 t h)

lemma consume_used_token (st : ApprovalState) (t a : String)
    (h : t ∈ st.usedTokens) :
    consume_approval_token st t a = (st, false) := by
  unfold consume_approval_token
  simp [h]

end Tokens

end LeaveApproval

/-- C5: once a token has been consumed to approve or reject a leave
request, every later request presenting the same token — after any sequence
of intervening requests — is rejected and leaves the state (including the
leave record's status) unchanged. -/
theorem approval_token_single_use (st : ApprovalState) (t a : String)
    (ops : List (String × String)) (a' : String) :
    consume_approval_token (run_consumes (consume_approval_token st t a).1 ops) t a' =
      (run_consumes (consume_approval_token st t a).1 ops, false) :=
  Tokens.consume_used_token _ t a'
    (Tokens.contains_run_consumes_mono ops _ t (Tokens.contains_after_consume st t a))

namespace LeaveApproval

namespace EmailUtil

lemma dict4_get_approval (d1 : Dict) (a r u1 u2 : String) :
    dictGet (dict4 d1 a r u1 u2) "approval_token" = some a := by
  unfold dict4
  rw [dictGet_set_ne _ "frontend_url" _ _ (by decide),
    dictGet_set_ne _ "backend_url" _ _ (by decide),
    dictGet_totalDaysStep_ne _ _ (by decide) (by decide),
    dictGet_set_ne _ "rejection_token" _ _ (by decide),
    dictGet_set_self]

lemma dict4_get_rejection (d1 : Dict) (a r u1 u2 : String) :
    dictGet (dict4 d1 a r u1 u2) "rejection_token" = some r := by
  unfold dict4
  rw [dictGet_set_ne _ "frontend_url" _ _ (by decide),
    dictGet_set_ne _ "backend_url" _ _ (by decide),
    dictGet_totalDaysStep_ne _ _ (by decide) (by decide),
    dictGet_set_self]

lemma dict4_get_backend (d1 : Dict) (a r u1 u2 : String) :
    dictGet (dict4 d1 a r u1 u2) "backend_url" = some u1 := by
  unfold dict4
  rw [dictGet_set_ne _ "frontend_url" _ _ (by decide), dictGet_set_self]

lemma dict4_get_frontend (d1 : Dict) (a r u1 u2 : String) :
    dictGet (dict4 d1 a r u1 u2) "frontend_url" = some u2 := by
  unfold dict4
  rw [dictGet_set_self]

lemma dict4_contains_total (d1 : Dict) (a r u1 u2 : String) :
    dictContains (dict4 d1 a r u1 u2) "total_days" = true := by
  unfold dict4
  rw [dictContains_set_ne _ "frontend_url" _ _ (by decide),
    dictContains_set_ne _ "backend_url" _ _ (by decide)]
  exact totalDaysStep_contains_total _

lemma dict4_get_untouched (d1 : Dict) (a r u1 u2 k : String)
    (h1 : k ≠ "frontend_url") (h2 : k ≠ "backend_url") (h3 : k ≠ "total_days")
    (h4 : k ≠ "days") (h5 : k ≠ "rejection_token") (h6 : k ≠ "approval_token") :
    dictGet (dict4 d1 a r u1 u2) k = dictGet d1 k := by
  unfold dict4
  rw [dictGet_set_ne _ _ _ _ h1, dictGet_set_ne _ _ _ _ h2,
    dictGet_totalDaysStep_ne _ _ h3 h4, dictGet_set_ne _ _ _ _ h5,
    dictGet_set_ne _ _ _ _ h6]

lemma composeAndSend_fields (ext : Ext) (env : Option TemplateEnv)
    (urls : String × String) (d1 : Dict) (lid mid a r : String) :
    (composeAndSend ext env urls d1 lid mid a r).tokenCalls =
        [(lid, mid, "approve", 24), (lid, mid, "reject", 24)] ∧
    (composeAndSend ext env urls d1 lid mid a r).tokensGenerated = some (a, r) ∧
    (composeAndSend ext env urls d1 lid mid a r).dict = dict4 d1 a r urls.1 urls.2 := by
  cases hm : dictGet (dict4 d1 a r urls.1 urls.2) "manager_email" with
  | none => simp [composeAndSend, hm]
  | some v =>
    cases hs : ext.smtpSend with
    | error e => simp [composeAndSend, hm, hs]
    | ok u => simp [composeAndSend, hm, hs]

lemma composeAndSend_message (ext : Ext) (env : Option TemplateEnv)
    (urls : String × String) (d1 : Dict) (lid mid a r : String) :
    (composeAndSend ext env urls d1 lid mid a r).message = none ∨
    ∃ t h2 a2, (composeAndSend ext env urls d1 lid mid a r).message =
      some (assembleParts t h2 a2 ext.attachOk) := by
  cases hm : dictGet (dict4 d1 a r urls.1 urls.2) "manager_email" with
  | none => simp [composeAndSend, hm]
  | some v =>
    cases hs : ext.smtpSend with
    | error e =>
      simp only [composeAndSend, hm, hs]
      exact Or.inr ⟨_, _, _, rfl⟩
    | ok u =>
      simp only [composeAndSend, hm, hs]
      exact Or.inr ⟨_, _, _, rfl⟩

lemma sendBody_shape (cfg : Config) (ext : Ext) (env : Option TemplateEnv) (d : Dict) :
    ((sendBody cfg ext env d).message = none ∧
     (sendBody cfg ext env d).tokensGenerated = none ∧
     (sendBody cfg ext env d).result ≠ PyResult.ok none) ∨
    ∃ d1 lid mid a r,
      dictGet d1 "_id" = some lid ∧ dictGet d1 "manager_id" = some mid ∧
      sendBody cfg ext env d =
        composeAndSend ext env (effectiveUrls cfg.BACKEND_URL cfg.FRONTEND_URL)
          d1 lid mid a r := by
  unfold sendBody
  split
  · exact Or.inl ⟨rfl, rfl, fun hc => by simp at hc⟩
  · split
    · exact Or.inl ⟨rfl, rfl, fun hc => by simp at hc⟩
    · split
      · exact Or.inl ⟨rfl, rfl, fun hc => by simp at hc⟩
      · split
        · exact Or.inl ⟨rfl, rfl, fun hc => by simp at hc⟩
        · split
          · exact Or.inl ⟨rfl, rfl, fun hc => by simp at hc⟩
          · split
            · exact Or.inl ⟨rfl, rfl, fun hc => by simp at hc⟩
            · split
              · exact Or.inl ⟨rfl, rfl, fun hc => by simp at hc⟩
              · right
                exact ⟨_, _, _, _, _, by assumption, by assumption, rfl⟩

lemma send_fields (cfg : Config) (ext : Ext) (env : Option TemplateEnv) (d : Dict) :
    (send_leave_action_email cfg ext env d).message = (sendBody cfg ext env d).message ∧
    (send_leave_action_email cfg ext env d).dict = (sendBody cfg ext env d).dict ∧
    (send_leave_action_email cfg ext env d).tokenCalls = (sendBody cfg ext env d).tokenCalls ∧
    (send_leave_action_email cfg ext env d).tokensGenerated =
      (sendBody cfg ext env d).tokensGenerated ∧
    (send_leave_action_email cfg ext env d).smtpAttempted =
      (sendBody cfg ext env d).smtpAttempted := by
  unfold send_leave_action_email
  cases hr : (sendBody cfg ext env d).result <;> simp [hr]

end EmailUtil

end LeaveApproval

/-- C3: every message assembled by send_leave_action_email is multi-format:
whenever a message was composed at all, its body parts are exactly three —
a plain-text part first, an HTML alternative, and an AMP part with MIME
type text/x-amp-html, or a further HTML alternative carrying the AMP
content when the attach step fails. -/
theorem email_message_multiformat (cfg : Config) (ext : Ext)
    (env : Option TemplateEnv) (d : Dict) :
    (send_leave_action_email cfg ext env d).message = none ∨
    ∃ text html amp,
      (send_leave_action_email cfg ext env d).message =
        some ([⟨"text/plain", text⟩, ⟨"text/html", html⟩] ++
          (if ext.attachOk then [(⟨"text/x-amp-html", amp⟩ : MimePart)]
           else [⟨"text/html", amp⟩])) := by
  rw [(send_fields cfg ext env d).1]
  rcases sendBody_shape cfg ext env d with ⟨h1, _, _⟩ | ⟨d1, lid, mid, a, r, _, _, heq⟩
  · exact Or.inl h1
  · rw [heq]
    rcases composeAndSend_message ext env _ d1 lid mid a r with h | ⟨t, h2, a2, h⟩
    · exact Or.inl h
    · exact Or.inr ⟨t, h2, a2, by rw [h]; rfl⟩

/-- C4: whenever send_leave_action_email's body runs to normal completion
(the email was sent), exactly two generate_approval_token calls were made —
one with action "approve" and one with action "reject", both bound to the
leave id and manager id recorded in the dict and each with 24 hours
validity. -/
theorem approval_tokens_two_calls (cfg : Config) (ext : Ext)
    (env : Option TemplateEnv) (d : Dict)
    (h : (sendBody cfg ext env d).result = PyResult.ok none) :
    ∃ lid mid,
      dictGet (sendBody cfg ext env d).dict "_id" = some lid ∧
      dictGet (sendBody cfg ext env d).dict "manager_id" = some mid ∧
      (sendBody cfg ext env d).tokenCalls =
        [(lid, mid, "approve", 24), (lid, mid, "reject", 24)] := by
  rcases sendBody_shape cfg ext env d with ⟨_, _, hres⟩ | ⟨d1, lid, mid, a, r, hlid, hmid, heq⟩
  · exact absurd h hres
  · obtain ⟨hcalls, _, hdict⟩ := composeAndSend_fields ext env
      (effectiveUrls cfg.BACKEND_URL cfg.FRONTEND_URL) d1 lid mid a r
    refine ⟨lid, mid, ?_, ?_, ?_⟩
    · rw [heq, hdict,
        dict4_get_untouched d1 a r _ _ "_id" (by decide) (by decide) (by decide)
          (by decide) (by decide) (by decide)]
      exact hlid
    · rw [heq, hdict,
        dict4_get_untouched d1 a r _ _ "manager_id" (by decide) (by decide) (by decide)
          (by decide) (by decide) (by decide)]
      exact hmid
    · rw [heq]
      exact hcalls

/-- C4 witness: a concrete fully-successful run. -/
theorem approval_tokens_two_calls_witness :
    (sendBody ⟨some "smtp.example.com", some "user", some "pass", "http://b", "http://f"⟩
        ⟨Except.ok (), fun _ => Except.ok none, fun _ _ _ _ => Except.ok "tok", true, Except.ok ()⟩
        none [("_id", "5"), ("manager_id", "7"), ("manager_email", "mgr@example.com")]).result =
      PyResult.ok none ∧
    ∃ lid mid,
      dictGet (sendBody ⟨some "smtp.example.com", some "user", some "pass", "http://b", "http://f"⟩
        ⟨Except.ok (), fun _ => Except.ok none, fun _ _ _ _ => Except.ok "tok", true, Except.ok ()⟩
        none [("_id", "5"), ("manager_id", "7"), ("manager_email", "mgr@example.com")]).dict "_id" = some lid ∧
      dictGet (sendBody ⟨some "smtp.example.com", some "user", some "pass", "http://b", "http://f"⟩
        ⟨Except.ok (), fun _ => Except.ok none, fun _ _ _ _ => Except.ok "tok", true, Except.ok ()⟩
        none [("_id", "5"), ("manager_id", "7"), ("manager_email", "mgr@example.com")]).dict "manager_id" = some mid ∧
      (sendBody ⟨some "smtp.example.com", some "user", some "pass", "http://b", "http://f"⟩
        ⟨Except.ok (), fun _ => Except.ok none, fun _ _ _ _ => Except.ok "tok", true, Except.ok ()⟩
        none [("_id", "5"), ("manager_id", "7"), ("manager_email", "mgr@example.com")]).tokenCalls =
        [(lid, mid, "approve", 24), (lid, mid, "reject", 24)] :=
  ⟨by decide, approval_tokens_two_calls _ _ _ _ (by decide)⟩

/-- C9 counterexample: a call that passes the configuration check but whose
leave_dict lacks '_id' raises KeyError before the token assignments, so the
caller's dictionary does not receive approval_token. -/
theorem leave_dict_mutation_counterexample :
    (truthy (some "h") && truthy (some "u") && truthy (some "p")) = true ∧
    dictContains (send_leave_action_email
        ⟨some "h", some "u", some "p", "http://b", "http://f"⟩
        ⟨Except.ok (), fun _ => Except.ok none, fun _ _ _ _ => Except.ok "tok", true, Except.ok ()⟩
        none [("manager_email", "mgr@example.com")]).dict "approval_token" = false := by
  constructor
  · decide
  · decide

/-- C9 (amended): after any call in which both tokens were generated (the
dict had _id and manager_id and generate_approval_token returned), the
caller's dictionary contains approval_token, rejection_token, backend_url,
frontend_url and total_days — total_days copied from days when only days
was present, both set to "N/A" when neither was. -/
theorem leave_dict_mutation_on_token_success (cfg : Config) (ext : Ext)
    (env : Option TemplateEnv) (d : Dict) (atk rtk : String)
    (h : (send_leave_action_email cfg ext env d).tokensGenerated = some (atk, rtk)) :
    dictGet (send_leave_action_email cfg ext env d).dict "approval_token" = some atk ∧
    dictGet (send_leave_action_email cfg ext env d).dict "rejection_token" = some rtk ∧
    dictGet (send_leave_action_email cfg ext env d).dict "backend_url" =
      some (effectiveUrls cfg.BACKEND_URL cfg.FRONTEND_URL).1 ∧
    dictGet (send_leave_action_email cfg ext env d).dict "frontend_url" =
      some (effectiveUrls cfg.BACKEND_URL cfg.FRONTEND_URL).2 ∧
    dictContains (send_leave_action_email cfg ext env d).dict "total_days" = true ∧
    (∀ d2 : Dict, dictContains d2 "days" = true → dictContains d2 "total_days" = false →
      dictGet (totalDaysStep d2) "total_days" = dictGet d2 "days") ∧
    (∀ d2 : Dict, dictContains d2 "days" = false → dictContains d2 "total_days" = false →
      dictGet (totalDaysStep d2) "total_days" = some "N/A" ∧
      dictGet (totalDaysStep d2) "days" = some "N/A") := by
  rw [(send_fields cfg ext env d).2.2.2.1] at h
  rw [(send_fields cfg ext env d).2.1]
  have hdays1 : ∀ d2 : Dict, dictContains d2 "days" = true →
      dictContains d2 "total_days" = false →
      dictGet (totalDaysStep d2) "total_days" = dictGet d2 "days" := by
    intro d2 hd ht2
    unfold totalDaysStep
    rw [if_pos (by simp [hd, ht2]), dictGet_set_self]
    have hsome : (dictGet d2 "days").isSome = true := by
      rw [← dictContains_eq_isSome]
      exact hd
    obtain ⟨x, hx⟩ := Option.isSome_iff_exists.mp hsome
    rw [hx]
    unfold dictGetD
    rw [hx]
    rfl
  have hdays2 : ∀ d2 : Dict, dictContains d2 "days" = false →
      dictContains d2 "total_days" = false →
      dictGet (totalDaysStep d2) "total_days" = some "N/A" ∧
      dictGet (totalDaysStep d2) "days" = some "N/A" := by
    intro d2 hd ht2
    unfold totalDaysStep
    rw [if_neg (by simp [hd]), if_pos (by simp [hd, ht2])]
    constructor
    · rw [dictGet_set_ne _ "days" _ _ (by decide), dictGet_set_self]
    · rw [dictGet_set_self]
  rcases sendBody_shape cfg ext env d with ⟨_, ht, _⟩ | ⟨d1, lid, mid, a, r, _, _, heq⟩
  · rw [ht] at h
    exact absurd h (by simp)
  · obtain ⟨_, htg, hdict⟩ := composeAndSend_fields ext env
      (effectiveUrls cfg.BACKEND_URL cfg.FRONTEND_URL) d1 lid mid a r
    rw [heq] at h
    rw [htg] at h
    have hpair : a = atk ∧ r = rtk := by
      have := Option.some.inj h
      exact ⟨congrArg Prod.fst this, congrArg Prod.snd this⟩
    obtain ⟨ha, hr⟩ := hpair
    subst ha
    subst hr
    rw [heq, hdict]
    exact ⟨dict4_get_approval d1 a r _ _, dict4_get_rejection d1 a r _ _,
      dict4_get_backend d1 a r _ _, dict4_get_frontend d1 a r _ _,
      dict4_contains_total d1 a r _ _, hdays1, hdays2⟩

/-- C9 witness: a concrete run through token generation. -/
theorem leave_dict_mutation_on_token_success_witness :
    (send_leave_action_email ⟨some "smtp.example.com", some "user", some "pass", "http://b", "http://f"⟩
        ⟨Except.ok (), fun _ => Except.ok none, fun _ _ _ _ => Except.ok "tok", true, Except.ok ()⟩
        none [("_id", "5"), ("manager_id", "7"), ("manager_email", "mgr@example.com")]).tokensGenerated =
      some ("tok", "tok") ∧
    dictGet (send_leave_action_email ⟨some "smtp.example.com", some "user", some "pass", "http://b", "http://f"⟩
        ⟨Except.ok (), fun _ => Except.ok none, fun _ _ _ _ => Except.ok "tok", true, Except.ok ()⟩
        none [("_id", "5"), ("manager_id", "7"), ("manager_email", "mgr@example.com")]).dict
      "approval_token" = some "tok" :=
  ⟨by decide,
    (leave_dict_mutation_on_token_success
      ⟨some "smtp.example.com", some "user", some "pass", "http://b", "http://f"⟩
      ⟨Except.ok (), fun _ => Except.ok none, fun _ _ _ _ => Except.ok "tok", true, Except.ok ()⟩
      none [("_id", "5"), ("manager_id", "7"), ("manager_email", "mgr@example.com")]
      "tok" "tok" (by decide)).1⟩

/-- C8: with any of EMAIL_HOST, EMAIL_USER, EMAIL_PASS unset or empty,
send_leave_action_email returns the error dict without attempting SMTP
contact, while send_password_reset_otp raises an exception whose message
names the missing variables; neither attempts SMTP contact. -/
theorem config_missing_asymmetry (cfg : Config) (ext : Ext)
    (env : Option TemplateEnv) (d : Dict) (smtp : Except String Unit)
    (recipient otp : String)
    (h : (truthy cfg.EMAIL_HOST && truthy cfg.EMAIL_USER && truthy cfg.EMAIL_PASS) = false) :
    (send_leave_action_email cfg ext env d).result =
        PyResult.ok (some [("error", configErrMsg cfg)]) ∧
    (send_leave_action_email cfg ext env d).smtpAttempted = false ∧
    (send_password_reset_otp cfg smtp recipient otp).result =
        PyResult.exn (otpConfigErrMsg cfg) ∧
    (send_password_reset_otp cfg smtp recipient otp).smtpAttempted = false ∧
    (truthy cfg.EMAIL_HOST = false → "EMAIL_HOST" ∈ missing_vars cfg) ∧
    (truthy cfg.EMAIL_USER = false → "EMAIL_USER" ∈ missing_vars cfg) ∧
    (truthy cfg.EMAIL_PASS = false → "EMAIL_PASS" ∈ missing_vars cfg) := by
  have hb : sendBody cfg ext env d =
      { dict := d, result := PyResult.ok (some [("error", configErrMsg cfg)]),
        tokenCalls := [], tokensGenerated := none, message := none,
        smtpAttempted := false } := by
    unfold sendBody
    rw [if_pos h]
  have hotp : send_password_reset_otp cfg smtp recipient otp =
      { result := PyResult.exn (otpConfigErrMsg cfg), message := none,
        smtpAttempted := false } := by
    unfold send_password_reset_otp
    rw [if_pos h]
  refine ⟨?_, ?_, ?_, ?_, ?_, ?_, ?_⟩
  · simp [send_leave_action_email, hb]
  · simp [send_leave_action_email, hb]
  · rw [hotp]
  · rw [hotp]
  · intro hh
    simp [missing_vars, hh]
  · intro hh
    simp [missing_vars, hh]
  · intro hh
    simp [missing_vars, hh]

/-- C8 witness: EMAIL_HOST and EMAIL_PASS missing. -/
theorem config_missing_asymmetry_witness :
    (send_leave_action_email ⟨none, some "u", none, "http://b", "http://f"⟩
        ⟨Except.ok (), fun _ => Except.ok none, fun _ _ _ _ => Except.ok "t", true, Except.ok ()⟩
        none []).result =
      PyResult.ok (some [("error", configErrMsg ⟨none, some "u", none, "http://b", "http://f"⟩)]) ∧
    (send_password_reset_otp ⟨none, some "u", none, "http://b", "http://f"⟩
        (Except.ok ()) "r@example.com" "123456").result =
      PyResult.exn (otpConfigErrMsg ⟨none, some "u", none, "http://b", "http://f"⟩) ∧
    "EMAIL_HOST" ∈ missing_vars ⟨none, some "u", none, "http://b", "http://f"⟩ :=
  ⟨(config_missing_asymmetry ⟨none, some "u", none, "http://b", "http://f"⟩
      ⟨Except.ok (), fun _ => Except.ok none, fun _ _ _ _ => Except.ok "t", true, Except.ok ()⟩
      none [] (Except.ok ()) "r@example.com" "123456" (by decide)).1,
   (config_missing_asymmetry ⟨none, some "u", none, "http://b", "http://f"⟩
      ⟨Except.ok (), fun _ => Except.ok none, fun _ _ _ _ => Except.ok "t", true, Except.ok ()⟩
      none [] (Except.ok ()) "r@example.com" "123456" (by decide)).2.2.1,
   (config_missing_asymmetry ⟨none, some "u", none, "http://b", "http://f"⟩
      ⟨Except.ok (), fun _ => Except.ok none, fun _ _ _ _ => Except.ok "t", true, Except.ok ()⟩
      none [] (Except.ok ()) "r@example.com" "123456" (by decide)).2.2.2.2.1 (by decide)⟩

/-- C7: FRONTEND_URL and BACKEND_URL default to the localhost URLs when
their environment variables are unset (in both modules), EMAIL_PORT
defaults to 587, and send_leave_action_email substitutes the same localhost
defaults whenever the URL configuration is falsy. -/
theorem env_config_defaults (envv : String → Option String) (b f : String) :
    (envv "FRONTEND_URL" = none →
      MainApp.FRONTEND_URL envv = "http://localhost:5173" ∧
      EmailUtil.FRONTEND_URL envv = "http://localhost:5173") ∧
    (envv "BACKEND_URL" = none →
      MainApp.BACKEND_URL envv = "http://localhost:8000" ∧
      EmailUtil.BACKEND_URL envv = "http://localhost:8000") ∧
    (envv "EMAIL_PORT" = none → EMAIL_PORT envv = some 587) ∧
    ((b.isEmpty || f.isEmpty) = true →
      effectiveUrls b f = ("http://localhost:8000", "http://localhost:5173")) := by
  refine ⟨fun h => ⟨?_, ?_⟩, fun h => ⟨?_, ?_⟩, fun h => ?_, fun h => ?_⟩
  · simp [MainApp.FRONTEND_URL, h]
  · simp [EmailUtil.FRONTEND_URL, h]
  · simp [MainApp.BACKEND_URL, h]
  · simp [EmailUtil.BACKEND_URL, h]
  · simp [EMAIL_PORT, h]
  · simp [effectiveUrls, h]

/-- C7 witness: the empty environment and an empty BACKEND_URL string. -/
theorem env_config_defaults_witness :
    MainApp.FRONTEND_URL (fun _ => none) = "http://localhost:5173" ∧
    MainApp.BACKEND_URL (fun _ => none) = "http://localhost:8000" ∧
    EMAIL_PORT (fun _ => none) = some 587 ∧
    effectiveUrls "" "http://f" = ("http://localhost:8000", "http://localhost:5173") :=
  ⟨((env_config_defaults (fun _ => none) "" "http://f").1 rfl).1,
   ((env_config_defaults (fun _ => none) "" "http://f").2.1 rfl).1,
   (env_config_defaults (fun _ => none) "" "http://f").2.2.1 rfl,
   (env_config_defaults (fun _ => none) "" "http://f").2.2.2 (by decide)⟩

namespace LeaveApproval

namespace MainApp

lemma add_amp_cors_headers_pos (unquote : String → String) (req : Request)
    (resp : Dict) (hp : startswith req.path "/leave/" = true) :
    add_amp_cors_headers unquote req resp =
      dictSet (dictSet (dictSet (dictSet (dictSet
        (if truthy (dictGet req.query_params "__amp_source_origin") then
          dictSet resp "AMP-Access-Control-Allow-Source-Origin"
            (unquote ((dictGet req.query_params "__amp_source_origin").getD ""))
        else
          dictSet resp "AMP-Access-Control-Allow-Source-Origin"
            ((dictGet req.headers "Origin").getD "*"))
        "Access-Control-Allow-Origin" "*")
        "Access-Control-Allow-Methods" "GET, POST, PUT, DELETE, OPTIONS")
        "Access-Control-Allow-Headers" "*")
        "Access-Control-Expose-Headers" "*")
        "Access-Control-Allow-Credentials" "true" := by
  unfold add_amp_cors_headers
  rw [if_pos hp]

end MainApp

end LeaveApproval

/-- C6 counterexample: a /leave/ request whose __amp_source_origin query
parameter is present but empty gets the Origin header value, not the
URL-decoded parameter value, as AMP-Access-Control-Allow-Source-Origin. -/
theorem amp_cors_headers_counterexample :
    dictGet (add_amp_cors_headers (fun s => s)
        ⟨"/leave/5/approve", [("__amp_source_origin", "")],
          [("Origin", "https://mail.google.com")]⟩ [])
      "AMP-Access-Control-Allow-Source-Origin" = some "https://mail.google.com" ∧
    ((fun s : String => s) "") ≠ "https://mail.google.com" := by
  constructor
  · decide
  · decide

/-- C6 (amended): for requests whose path starts with "/leave/", the
response carries AMP-Access-Control-Allow-Source-Origin — the URL-decoded
__amp_source_origin query parameter when present and non-empty, otherwise
the Origin header, otherwise "*" — together with the other
Access-Control-* headers; other requests' headers are unchanged. -/
theorem amp_cors_headers_behavior (unquote : String → String) (req : Request)
    (resp : Dict) :
    (startswith req.path "/leave/" = false →
      add_amp_cors_headers unquote req resp = resp) ∧
    (startswith req.path "/leave/" = true →
      (∀ v, dictGet req.query_params "__amp_source_origin" = some v →
        v.isEmpty = false →
        dictGet (add_amp_cors_headers unquote req resp)
          "AMP-Access-Control-Allow-Source-Origin" = some (unquote v)) ∧
      (truthy (dictGet req.query_params "__amp_source_origin") = false →
        dictGet (add_amp_cors_headers unquote req resp)
          "AMP-Access-Control-Allow-Source-Origin" =
          some ((dictGet req.headers "Origin").getD "*")) ∧
      dictGet (add_amp_cors_headers unquote req resp)
        "Access-Control-Allow-Origin" = some "*" ∧
      dictGet (add_amp_cors_headers unquote req resp)
        "Access-Control-Allow-Methods" = some "GET, POST, PUT, DELETE, OPTIONS" ∧
      dictGet (add_amp_cors_headers unquote req resp)
        "Access-Control-Allow-Headers" = some "*" ∧
      dictGet (add_amp_cors_headers unquote req resp)
        "Access-Control-Expose-Headers" = some "*" ∧
      dictGet (add_amp_cors_headers unquote req resp)
        "Access-Control-Allow-Credentials" = some "true") := by
  constructor
  · intro hp
    unfold add_amp_cors_headers
    rw [if_neg (by simp [hp])]
  · intro hp
    refine ⟨?_, ?_, ?_, ?_, ?_, ?_, ?_⟩
    · intro v hv hve
      rw [add_amp_cors_headers_pos unquote req resp hp,
        dictGet_set_ne _ _ _ _ (by decide), dictGet_set_ne _ _ _ _ (by decide),
        dictGet_set_ne _ _ _ _ (by decide), dictGet_set_ne _ _ _ _ (by decide),
        dictGet_set_ne _ _ _ _ (by decide), hv]
      simp [truthy, hve, dictGet_set_self]
    · intro htr
      rw [add_amp_cors_headers_pos unquote req resp hp,
        dictGet_set_ne _ _ _ _ (by decide), dictGet_set_ne _ _ _ _ (by decide),
        dictGet_set_ne _ _ _ _ (by decide), dictGet_set_ne _ _ _ _ (by decide),
        dictGet_set_ne _ _ _ _ (by decide), if_neg (by simp [htr]),
        dictGet_set_self]
    · rw [add_amp_cors_headers_pos unquote req resp hp,
        dictGet_set_ne _ _ _ _ (by decide), dictGet_set_ne _ _ _ _ (by decide),
        dictGet_set_ne _ _ _ _ (by decide), dictGet_set_ne _ _ _ _ (by decide),
        dictGet_set_self]
    · rw [add_amp_cors_headers_pos unquote req resp hp,
        dictGet_set_ne _ _ _ _ (by decide), dictGet_set_ne _ _ _ _ (by decide),
        dictGet_set_ne _ _ _ _ (by decide), dictGet_set_self]
    · rw [add_amp_cors_headers_pos unquote req resp hp,
        dictGet_set_ne _ _ _ _ (by decide), dictGet_set_ne _ _ _ _ (by decide),
        dictGet_set_self]
    · rw [add_amp_cors_headers_pos unquote req resp hp,
        dictGet_set_ne _ _ _ _ (by decide), dictGet_set_self]
    · rw [add_amp_cors_headers_pos unquote req resp hp, dictGet_set_self]

/-- C6 witness: a /leave/ request with a non-empty source-origin parameter,
and a request outside /leave/ left unchanged. -/
theorem amp_cors_headers_behavior_witness :
    dictGet (add_amp_cors_headers (fun s => s)
        ⟨"/leave/1", [("__amp_source_origin", "abc")], []⟩ [])
      "AMP-Access-Control-Allow-Source-Origin" = some ((fun s : String => s) "abc") ∧
    add_amp_cors_headers (fun s => s) ⟨"/health", [], []⟩ [] = [] :=
  ⟨((amp_cors_headers_behavior (fun s => s)
      ⟨"/leave/1", [("__amp_source_origin", "abc")], []⟩ []).2 (by decide)).1
      "abc" (by decide) (by decide),
   (amp_cors_headers_behavior (fun s => s) ⟨"/health", [], []⟩ []).1 (by decide)⟩
